import Mathlib

/-!
# Verification of the goose Agent core (crates/goose/src/agents/agent.rs)

A shallow embedding of the agent's tool-dispatch router, schedule tool
handler, extension management, tool monitor and reply loop, together with
theorems settling the frozen claims about the natural-language
specification.

Conventions:
* Pure Rust functions become Lean functions over explicit state.
* External collaborators (Scheduler, ExtensionManager, the vector index,
  the large-response post-processor) are modelled as oracles: structures of
  pure response functions.  Each embedded operation additionally returns a
  log of the oracle invocations it performed, so that "the scheduler was
  not called" is a provable statement.
* `serde_json::Value` is modelled by `Json` below.
-/

mutual
/-- Schemaless structured value, modelling `serde_json::Value`.  Arrays
and objects are represented by the mutual types `JsonSeq` / `JsonObj`
(plain sequences of values resp. of key-value entries). -/
inductive Json where
  | null
  | bool (b : Bool)
  | num (n : Int)
  | str (s : String)
  | arr (elems : JsonSeq)
  | obj (fields : JsonObj)
deriving DecidableEq
/-- A sequence of JSON values (array contents). -/
inductive JsonSeq where
  | nil
  | cons (head : Json) (tail : JsonSeq)
deriving DecidableEq
/-- A sequence of key-value entries (object contents). -/
inductive JsonObj where
  | nil
  | cons (key : String) (value : Json) (tail : JsonObj)
deriving DecidableEq
end

/-- First-match field lookup inside an object body. -/
def JsonObj.lookup : JsonObj → String → Option Json
  | .nil, _ => none
  | .cons k v rest, key => if k = key then some v else rest.lookup key

/-- Convenience constructor for object literals. -/
def Json.mkObj : List (String × Json) → Json :=
  fun fields => .obj (fields.foldr (fun kv acc => JsonObj.cons kv.1 kv.2 acc) .nil)

/-- `Value::get(key)`: field lookup on an object, `None` otherwise. -/
def Json.get : Json → String → Option Json
  | .obj fields, key => fields.lookup key
  | _, _ => none

/-- `Value::as_str()`. -/
def Json.asStr : Json → Option String
  | .str s => some s
  | _ => none

/-- `Value::as_u64()` (restricted to nonnegative integers). -/
def Json.asU64 : Json → Option Nat
  | .num n => if 0 ≤ n then some n.toNat else none
  | _ => none

/-- `arguments.get(key).and_then(|v| v.as_str())`. -/
def Json.getStr (j : Json) (key : String) : Option String :=
  (j.get key).bind Json.asStr

/-- `mcp_core::Content`; only the text variant is produced by the agent. -/
inductive Content where
  | text (s : String)
deriving DecidableEq

/-- `mcp_core::ToolError`; the agent only constructs `ExecutionError`. -/
inductive ToolError where
  | executionError (msg : String)
deriving DecidableEq

/-- `ToolResult<Vec<Content>>`, the resolved output of one tool call. -/
abbrev ToolOutput := Except ToolError (List Content)

/-- Whether an `Except` is the success constructor. -/
def Except.isOkB : Except ε α → Bool
  | .ok _ => true
  | .error _ => false

instance {ε α : Type} [DecidableEq ε] [DecidableEq α] :
    DecidableEq (Except ε α) := fun a b =>
  match a, b with
  | .ok x, .ok y =>
      if h : x = y then .isTrue (by rw [h]) else .isFalse (by simp [h])
  | .error x, .error y =>
      if h : x = y then .isTrue (by rw [h]) else .isFalse (by simp [h])
  | .ok _, .error _ => .isFalse (by simp)
  | .error _, .ok _ => .isFalse (by simp)

/-- `mcp_core::tool::ToolCall` (also `tool_monitor::ToolCall`): a tool
name together with its schemaless arguments. -/
structure ToolCall where
  name : String
  arguments : Json
deriving DecidableEq

/-- Modelled from the spec: the chat-mode skip sentinel
`CHAT_MODE_TOOL_SKIPPED_RESPONSE` lives in `tool_execution.rs`, which is
not part of the provided sources; §6 fixes the string. -/
def CHAT_MODE_TOOL_SKIPPED_RESPONSE : String :=
  "Tool execution skipped in chat mode"

/-- Modelled from the spec: the declined sentinel `DECLINED_RESPONSE`
from `tool_execution.rs`; §6 fixes the string. -/
def DECLINED_RESPONSE : String :=
  "The user has declined to run this tool"

/-- Modelled from the spec: the platform tool name constants live in
`platform_tools.rs` / `router_tools.rs`, which are not part of the
provided sources; the spec names the tools `platform.manage_schedule`
etc.  Only distinctness of the constants matters to the claims. -/
def PLATFORM_MANAGE_SCHEDULE_TOOL_NAME : String := "platform.manage_schedule"

/-- Modelled from the spec: see `PLATFORM_MANAGE_SCHEDULE_TOOL_NAME`. -/
def PLATFORM_MANAGE_EXTENSIONS_TOOL_NAME : String := "platform.manage_extensions"

/-- Modelled from the spec: see `PLATFORM_MANAGE_SCHEDULE_TOOL_NAME`. -/
def PLATFORM_READ_RESOURCE_TOOL_NAME : String := "platform.read_resource"

/-- Modelled from the spec: see `PLATFORM_MANAGE_SCHEDULE_TOOL_NAME`. -/
def PLATFORM_LIST_RESOURCES_TOOL_NAME : String := "platform.list_resources"

/-- Modelled from the spec: see `PLATFORM_MANAGE_SCHEDULE_TOOL_NAME`. -/
def PLATFORM_SEARCH_AVAILABLE_EXTENSIONS_TOOL_NAME : String :=
  "platform.search_available_extensions"

/-- Modelled from the spec: see `PLATFORM_MANAGE_SCHEDULE_TOOL_NAME`. -/
def ROUTER_VECTOR_SEARCH_TOOL_NAME : String := "router.vector_search"

/-!
## ToolMonitor

Modelled from the spec (§4.1): `crate::tool_monitor::ToolMonitor` is not
part of the provided sources.  "Records ... the last `(name, arguments)`
observed and a consecutive-repeat counter.  On each `check(call)`: if the
call equals the recorded one, increment; else reset to 1.  If the counter
exceeds `max_repetitions` (configured; `None` disables), return
`rejected`."
-/

structure ToolMonitor where
  max_repetitions : Option Nat
  last_call : Option ToolCall
  consecutive : Nat
deriving DecidableEq

/-- Modelled from the spec: fresh monitor with a configured cap. -/
def ToolMonitor.new (max_repetitions : Option Nat) : ToolMonitor :=
  ⟨max_repetitions, none, 0⟩

/-- Modelled from the spec: one `check_tool_call` step; returns whether
the call is allowed together with the updated monitor. -/
def ToolMonitor.check_tool_call (m : ToolMonitor) (call : ToolCall) :
    Bool × ToolMonitor :=
  let count := if m.last_call = some call then m.consecutive + 1 else 1
  let allowed :=
    match m.max_repetitions with
    | none => true
    | some k => decide (count ≤ k)
  (allowed, { m with last_call := some call, consecutive := count })

/-!
## Scheduler interface and the schedule tool handler

`SchedulerTrait` is an external collaborator (spec §6); it is modelled as
an oracle of pure response functions.  Each handler returns the tool
output together with the list of scheduler invocations it performed, in
order, so that "without calling the scheduler" is provable.
`handle_schedule_management` and the `handle_*` helpers below embed
`agent.rs:383-578`.
-/

/-- `crate::scheduler::ScheduledJob` (spec §3). -/
structure ScheduledJob where
  id : String
  source : String
  cron : String
  last_run : Option String
  currently_running : Bool
  paused : Bool
  current_session_id : Option String
  process_start_time : Option String
deriving DecidableEq

/-- `session::storage::SessionMetadata` as used by the sessions action. -/
structure SessionMetadata where
  message_count : Nat
  working_dir : String
deriving DecidableEq

/-- Oracle for the external `SchedulerTrait`: each operation's pure
response.  `DateTime<Utc>` values are modelled as epoch seconds. -/
structure Scheduler where
  list_scheduled_jobs : Except String (List ScheduledJob)
  add_scheduled_job : ScheduledJob → Except String Unit
  run_now : String → Except String String
  pause_schedule : String → Except String Unit
  unpause_schedule : String → Except String Unit
  remove_scheduled_job : String → Except String Unit
  kill_running_job : String → Except String Unit
  get_running_job_info : String → Except String (Option (String × Int))
  sessions : String → Nat → Except String (List (String × SessionMetadata))

/-- One recorded invocation of the external scheduler. -/
inductive SchedCall where
  | listScheduledJobs
  | addScheduledJob (job : ScheduledJob)
  | runNow (id : String)
  | pauseSchedule (id : String)
  | unpauseSchedule (id : String)
  | removeScheduledJob (id : String)
  | killRunningJob (id : String)
  | getRunningJobInfo (id : String)
  | sessions (id : String) (limit : Nat)
deriving DecidableEq

/-- Ambient pure facts used by the schedule handlers: the filesystem
probe and recipe parsers used by the create action (external), JSON
pretty-printing, the current time and RFC3339 rendering. -/
structure ScheduleEnv where
  path_exists : String → Bool
  read_to_string : String → Except String String
  parse_json_recipe : String → Except String Unit
  parse_yaml_recipe : String → Except String Unit
  to_string_pretty : List ScheduledJob → String
  now_timestamp : Int
  rfc3339 : Int → String

/-- `Agent::handle_list_jobs` (agent.rs:413-422). -/
def handle_list_jobs (env : ScheduleEnv) (scheduler : Scheduler) :
    ToolOutput × List SchedCall :=
  (match scheduler.list_scheduled_jobs with
   | .ok jobs =>
       .ok [Content.text ("Scheduled Jobs:\n" ++ env.to_string_pretty jobs)]
   | .error e => .error (.executionError ("Failed to list jobs: " ++ e)),
   [SchedCall.listScheduledJobs])

/-- `Agent::handle_create_job` (agent.rs:424-470). -/
def handle_create_job (env : ScheduleEnv) (scheduler : Scheduler)
    (arguments : Json) : ToolOutput × List SchedCall :=
  match arguments.getStr "recipe_path" with
  | none => (.error (.executionError "Missing 'recipe_path' parameter"), [])
  | some recipe_path =>
    match arguments.getStr "cron_expression" with
    | none => (.error (.executionError "Missing 'cron_expression' parameter"), [])
    | some cron_expression =>
      if env.path_exists recipe_path then
        match env.read_to_string recipe_path with
        | .error e =>
            (.error (.executionError ("Cannot read recipe file: " ++ e)), [])
        | .ok content =>
          let parsed : Except ToolError Unit :=
            if recipe_path.endsWith ".json" then
              (env.parse_json_recipe content).mapError
                (fun e => .executionError ("Invalid JSON recipe: " ++ e))
            else
              (env.parse_yaml_recipe content).mapError
                (fun e => .executionError ("Invalid YAML recipe: " ++ e))
          match parsed with
          | .error err => (.error err, [])
          | .ok () =>
            let job_id := "agent_created_" ++ toString env.now_timestamp
            let job : ScheduledJob :=
              { id := job_id
                source := recipe_path
                cron := cron_expression
                last_run := none
                currently_running := false
                paused := false
                current_session_id := none
                process_start_time := none }
            (match scheduler.add_scheduled_job job with
             | .ok () =>
                 .ok [Content.text ("Successfully created scheduled job '" ++ job_id
                   ++ "' for recipe '" ++ recipe_path
                   ++ "' with cron expression '" ++ cron_expression ++ "'")]
             | .error e => .error (.executionError ("Failed to create job: " ++ e)),
             [SchedCall.addScheduledJob job])
      else
        (.error (.executionError ("Recipe file not found: " ++ recipe_path)), [])

/-- `Agent::handle_run_now` (agent.rs:472-481). -/
def handle_run_now (scheduler : Scheduler) (arguments : Json) :
    ToolOutput × List SchedCall :=
  match arguments.getStr "job_id" with
  | none => (.error (.executionError "Missing 'job_id' parameter"), [])
  | some job_id =>
    (match scheduler.run_now job_id with
     | .ok session_id =>
         .ok [Content.text ("Successfully started job '" ++ job_id
           ++ "'. Session ID: " ++ session_id)]
     | .error e => .error (.executionError ("Failed to run job: " ++ e)),
     [SchedCall.runNow job_id])

/-- `Agent::handle_pause_job` (agent.rs:483-492). -/
def handle_pause_job (scheduler : Scheduler) (arguments : Json) :
    ToolOutput × List SchedCall :=
  match arguments.getStr "job_id" with
  | none => (.error (.executionError "Missing 'job_id' parameter"), [])
  | some job_id =>
    (match scheduler.pause_schedule job_id with
     | .ok () => .ok [Content.text ("Successfully paused job '" ++ job_id ++ "'")]
     | .error e => .error (.executionError ("Failed to pause job: " ++ e)),
     [SchedCall.pauseSchedule job_id])

/-- `Agent::handle_unpause_job` (agent.rs:494-503). -/
def handle_unpause_job (scheduler : Scheduler) (arguments : Json) :
    ToolOutput × List SchedCall :=
  match arguments.getStr "job_id" with
  | none => (.error (.executionError "Missing 'job_id' parameter"), [])
  | some job_id =>
    (match scheduler.unpause_schedule job_id with
     | .ok () => .ok [Content.text ("Successfully unpaused job '" ++ job_id ++ "'")]
     | .error e => .error (.executionError ("Failed to unpause job: " ++ e)),
     [SchedCall.unpauseSchedule job_id])

/-- `Agent::handle_delete_job` (agent.rs:505-514). -/
def handle_delete_job (scheduler : Scheduler) (arguments : Json) :
    ToolOutput × List SchedCall :=
  match arguments.getStr "job_id" with
  | none => (.error (.executionError "Missing 'job_id' parameter"), [])
  | some job_id =>
    (match scheduler.remove_scheduled_job job_id with
     | .ok () => .ok [Content.text ("Successfully deleted job '" ++ job_id ++ "'")]
     | .error e => .error (.executionError ("Failed to delete job: " ++ e)),
     [SchedCall.removeScheduledJob job_id])

/-- `Agent::handle_kill_job` (agent.rs:516-525). -/
def handle_kill_job (scheduler : Scheduler) (arguments : Json) :
    ToolOutput × List SchedCall :=
  match arguments.getStr "job_id" with
  | none => (.error (.executionError "Missing 'job_id' parameter"), [])
  | some job_id =>
    (match scheduler.kill_running_job job_id with
     | .ok () =>
         .ok [Content.text ("Successfully killed running job '" ++ job_id ++ "'")]
     | .error e => .error (.executionError ("Failed to kill job: " ++ e)),
     [SchedCall.killRunningJob job_id])

/-- `Agent::handle_inspect_job` (agent.rs:527-543). -/
def handle_inspect_job (env : ScheduleEnv) (scheduler : Scheduler)
    (arguments : Json) : ToolOutput × List SchedCall :=
  match arguments.getStr "job_id" with
  | none => (.error (.executionError "Missing 'job_id' parameter"), [])
  | some job_id =>
    (match scheduler.get_running_job_info job_id with
     | .ok (some (session_id, start_time)) =>
         .ok [Content.text ("Job '" ++ job_id ++ "' is currently running:\n- Session ID: "
           ++ session_id ++ "\n- Started: " ++ env.rfc3339 start_time
           ++ "\n- Duration: " ++ toString (env.now_timestamp - start_time)
           ++ " seconds")]
     | .ok none =>
         .ok [Content.text ("Job '" ++ job_id ++ "' is not currently running")]
     | .error e => .error (.executionError ("Failed to inspect job: " ++ e)),
     [SchedCall.getRunningJobInfo job_id])

/-- `Agent::handle_list_sessions` (agent.rs:545-578). -/
def handle_list_sessions (scheduler : Scheduler) (arguments : Json) :
    ToolOutput × List SchedCall :=
  match arguments.getStr "job_id" with
  | none => (.error (.executionError "Missing 'job_id' parameter"), [])
  | some job_id =>
    let limit := ((arguments.get "limit").bind Json.asU64).getD 50
    (match scheduler.sessions job_id limit with
     | .ok sessions =>
         if sessions.isEmpty then
           .ok [Content.text ("No sessions found for job '" ++ job_id ++ "'")]
         else
           let sessions_info := sessions.map fun p =>
             "- Session: " ++ p.1 ++ " (Messages: " ++ toString p.2.message_count
               ++ ", Working Dir: " ++ p.2.working_dir ++ ")"
           .ok [Content.text ("Sessions for job '" ++ job_id ++ "':\n"
             ++ String.intercalate "\n" sessions_info)]
     | .error e => .error (.executionError ("Failed to list sessions: " ++ e)),
     [SchedCall.sessions job_id limit])

/-- `Agent::handle_schedule_management` (agent.rs:383-411).  The
scheduler-availability check precedes all argument parsing; the action
string is then matched against the nine known actions. -/
def handle_schedule_management (env : ScheduleEnv)
    (scheduler_service : Option Scheduler) (arguments : Json) :
    ToolOutput × List SchedCall :=
  match scheduler_service with
  | none =>
      (.error (.executionError
        "Scheduler not available. This tool only works in server mode."), [])
  | some scheduler =>
    match arguments.getStr "action" with
    | none => (.error (.executionError "Missing 'action' parameter"), [])
    | some action =>
      if action = "list" then handle_list_jobs env scheduler
      else if action = "create" then handle_create_job env scheduler arguments
      else if action = "run_now" then handle_run_now scheduler arguments
      else if action = "pause" then handle_pause_job scheduler arguments
      else if action = "unpause" then handle_unpause_job scheduler arguments
      else if action = "delete" then handle_delete_job scheduler arguments
      else if action = "kill" then handle_kill_job scheduler arguments
      else if action = "inspect" then handle_inspect_job env scheduler arguments
      else if action = "sessions" then handle_list_sessions scheduler arguments
      else (.error (.executionError ("Unknown action: " ++ action)), [])

/-!
## Extension management and tool dispatch

`ExtensionManager`, `ExtensionConfigManager` and the
`ToolRouterIndexManager` are external to the provided sources; they are
modelled as oracles.  The extension membership visible through the
`ExtensionManager` is carried explicitly as a `List String` of extension
names so that "the mutation is not rolled back" is provable.
`manage_extensions` embeds `agent.rs:298-381` and `dispatch_tool_call`
embeds `agent.rs:198-296`.
-/

/-- Oracle for the extension subsystem: config lookup
(`ExtensionConfigManager::get_config_by_name`), the outcomes of
`ExtensionManager::add_extension` / `remove_extension`, whether the
vector tool router is enabled
(`ToolRouterIndexManager::vector_tool_router_enabled`), whether a router
tool selector is present, and the outcome of
`ToolRouterIndexManager::update_extension_tools`. -/
structure ExtensionEnv where
  get_config_by_name : String → Except String (Option String)
  add_outcome : String → Except String Unit
  remove_outcome : String → Except String Unit
  vector_tool_router_enabled : Bool
  selector_present : Bool
  update_extension_tools : String → String → Except String Unit

/-- Result of `Agent::manage_extensions`: the returned pair plus the new
extension membership and the recorded `(extension_name, action)` vector
index invocations. -/
structure ManageExtensionsResult where
  request_id : String
  result : ToolOutput
  extensions : List String
  index_calls : List (String × String)
deriving DecidableEq

/-- `Agent::manage_extensions` (agent.rs:298-381).  Note: the `disable`
branch returns at agent.rs:317, before the vector-index block at
agent.rs:353-378 is reached, so `index_calls` is empty on disable. -/
def manage_extensions (env : ExtensionEnv) (extensions : List String)
    (action extension_name request_id : String) : ManageExtensionsResult :=
  if action = "disable" then
    match env.remove_outcome extension_name with
    | .ok () =>
        ⟨request_id,
         .ok [Content.text ("The extension '" ++ extension_name
           ++ "' has been disabled successfully")],
         extensions.erase extension_name, []⟩
    | .error e => ⟨request_id, .error (.executionError e), extensions, []⟩
  else
    match env.get_config_by_name extension_name with
    | .ok none =>
        ⟨request_id,
         .error (.executionError ("Extension '" ++ extension_name
           ++ "' not found. Please check the extension name and try again.")),
         extensions, []⟩
    | .error e =>
        ⟨request_id,
         .error (.executionError ("Failed to get extension config: " ++ e)),
         extensions, []⟩
    | .ok (some _config) =>
      match env.add_outcome extension_name with
      | .error e => ⟨request_id, .error (.executionError e), extensions, []⟩
      | .ok () =>
        let extensions' := extension_name :: extensions
        let ok_result : ToolOutput :=
          .ok [Content.text ("The extension '" ++ extension_name
            ++ "' has been installed successfully")]
        if env.vector_tool_router_enabled then
          if env.selector_present then
            let vector_action := if action = "disable" then "remove" else "add"
            match env.update_extension_tools extension_name vector_action with
            | .ok () =>
                ⟨request_id, ok_result, extensions',
                 [(extension_name, vector_action)]⟩
            | .error e =>
                ⟨request_id,
                 .error (.executionError ("Failed to update vector index: " ++ e)),
                 extensions', [(extension_name, vector_action)]⟩
          else ⟨request_id, ok_result, extensions', []⟩
        else ⟨request_id, ok_result, extensions', []⟩

/-- Mutable agent state threaded through `dispatch_tool_call`: the
optional tool monitor and the extension membership. -/
structure AgentState where
  tool_monitor : Option ToolMonitor
  extensions : List String
deriving DecidableEq

/-- Oracle environment for `dispatch_tool_call`: the schedule handler
environment, the attached scheduler, the extension environment, the
frontend tool names, and the remaining external operations
(`ExtensionManager::read_resource` / `list_resources` /
`search_available_extensions` / `dispatch_tool_call`, the router
selector's `select_tools`, and the large-response post-processor of
`large_response_handler.rs`, spec §4.4 step 3). -/
structure DispatchEnv where
  sched_env : ScheduleEnv
  scheduler_service : Option Scheduler
  ext_env : ExtensionEnv
  frontend_tool_names : List String
  select_tools : Json → ToolOutput
  read_resource : Json → ToolOutput
  list_resources : Json → ToolOutput
  search_available_extensions : ToolOutput
  extension_dispatch : ToolCall → Except String ToolOutput
  process_tool_response : ToolOutput → ToolOutput

/-- Result of one `dispatch_tool_call`: the returned
`(request_id, Result<ToolCallResult, ToolError>)` pair with the inner
completion future resolved to its `ToolOutput`, the updated agent state,
and the logs of scheduler / vector-index / extension dispatch
invocations performed. -/
structure DispatchResult where
  request_id : String
  outcome : Except ToolError ToolOutput
  state : AgentState
  sched_calls : List SchedCall
  index_calls : List (String × String)
  ext_dispatch_calls : List ToolCall

/-- `Agent::dispatch_tool_call` (agent.rs:198-296).  The repetition
monitor is consulted first (agent.rs:203-215); the monitor state is
updated even when the call is rejected, and rejection returns before any
routing.  The schedule and manage-extensions branches return without the
large-response wrap; the remaining branches pass their resolved output
through `process_tool_response` (agent.rs:285-295). -/
def dispatch_tool_call (env : DispatchEnv) (st : AgentState)
    (tool_call : ToolCall) (request_id : String) : DispatchResult :=
  let checked : Bool × AgentState :=
    match st.tool_monitor with
    | some monitor =>
        let (allowed, monitor') :=
          monitor.check_tool_call ⟨tool_call.name, tool_call.arguments⟩
        (allowed, { st with tool_monitor := some monitor' })
    | none => (true, st)
  let allowed := checked.1
  let st := checked.2
  if allowed = false then
    ⟨request_id,
     .error (.executionError
       "Tool call rejected: exceeded maximum allowed repetitions"),
     st, [], [], []⟩
  else if tool_call.name = PLATFORM_MANAGE_SCHEDULE_TOOL_NAME then
    let r := handle_schedule_management env.sched_env env.scheduler_service
      tool_call.arguments
    ⟨request_id, .ok r.1, st, r.2, [], []⟩
  else if tool_call.name = PLATFORM_MANAGE_EXTENSIONS_TOOL_NAME then
    let extension_name := (tool_call.arguments.getStr "extension_name").getD ""
    let action := (tool_call.arguments.getStr "action").getD ""
    let r := manage_extensions env.ext_env st.extensions action extension_name
      request_id
    ⟨r.request_id, .ok r.result, { st with extensions := r.extensions },
     [], r.index_calls, []⟩
  else if tool_call.name = PLATFORM_READ_RESOURCE_TOOL_NAME then
    ⟨request_id,
     .ok (env.process_tool_response (env.read_resource tool_call.arguments)),
     st, [], [], []⟩
  else if tool_call.name = PLATFORM_LIST_RESOURCES_TOOL_NAME then
    ⟨request_id,
     .ok (env.process_tool_response (env.list_resources tool_call.arguments)),
     st, [], [], []⟩
  else if tool_call.name = PLATFORM_SEARCH_AVAILABLE_EXTENSIONS_TOOL_NAME then
    ⟨request_id,
     .ok (env.process_tool_response env.search_available_extensions),
     st, [], [], []⟩
  else if env.frontend_tool_names.contains tool_call.name then
    ⟨request_id,
     .ok (env.process_tool_response
       (.error (.executionError "Frontend tool execution required"))),
     st, [], [], []⟩
  else if tool_call.name = ROUTER_VECTOR_SEARCH_TOOL_NAME then
    let inner : ToolOutput :=
      if env.ext_env.selector_present then env.select_tools tool_call.arguments
      else .error (.executionError "Encountered vector search error.")
    ⟨request_id, .ok (env.process_tool_response inner), st, [], [], []⟩
  else
    let inner : ToolOutput :=
      match env.extension_dispatch tool_call with
      | .ok call_result => call_result
      | .error e => .error (.executionError e)
    ⟨request_id, .ok (env.process_tool_response inner), st, [], [],
     [tool_call]⟩

/-- Iterated dispatch of the same tool call: the list of per-call
dispatch results, threading the agent state. -/
def dispatch_repeated (env : DispatchEnv) (st : AgentState)
    (tool_call : ToolCall) (request_id : String) :
    Nat → List DispatchResult × AgentState
  | 0 => ([], st)
  | n + 1 =>
    let r := dispatch_tool_call env st tool_call request_id
    let rest := dispatch_repeated env r.state tool_call request_id n
    (r :: rest.1, rest.2)

/-!
## Messages and the reply loop

The `Message` data model follows spec §3; a tool-use request carries its
`request_id` and the parse result of its `ToolCall` (the source type is
`ToolResult<ToolCall>`, so the recorded call may be an `Err`).

The reply loop body is embedded as `process_turn` (agent.rs:783-950).
The pieces of the loop that live outside the provided sources are
modelled from the spec:
* `categorize_tool_requests` (spec §4.7 "Categorisation"),
* `handle_frontend_tool_requests` (spec §4.7 step A: one surfacing event
  and one awaited tool result per frontend request),
* `handle_approval_tool_requests` (spec §4.7 step C: one confirmation
  request per needs-approval request; on allow the call is dispatched,
  otherwise the declined sentinel is folded),
* `check_tool_permissions` (spec §4.3): abstracted as a `TurnOracle`
  supplying some partition of the remaining requests into
  approved / needs-approval / denied plus the set of
  enable-extension request ids; the theorems quantify over all such
  partitions.
Dispatch results and channel contents are oracle functions keyed by
request id (`dispatch_tool_call` itself is verified separately and
preserves request ids, theorem `C10_request_id_preserved`).  Tool
notification streams are not modelled; no claim concerns notifications.
-/

/-- Message role. -/
inductive Role where
  | user
  | assistant
deriving DecidableEq

/-- A tool-use request: unique id plus the recorded `ToolCall` parse
result (`ToolResult<ToolCall>` in the source). -/
structure ToolRequest where
  id : String
  tool_call : Except String ToolCall
deriving DecidableEq

/-- One content part of a message. -/
inductive MessageContent where
  | text (s : String)
  | toolRequest (req : ToolRequest)
  | toolResponse (id : String) (output : ToolOutput)
deriving DecidableEq

/-- A conversation message. -/
structure Message where
  role : Role
  content : List MessageContent
deriving DecidableEq

/-- `Message::user()`: empty user message. -/
def Message.user : Message := ⟨Role.user, []⟩

/-- `Message::with_tool_response(id, output)`: append one tool-result
attachment. -/
def Message.with_tool_response (m : Message) (id : String)
    (output : ToolOutput) : Message :=
  { m with content := m.content ++ [.toolResponse id output] }

/-- The tool-use requests carried by a message, in order. -/
def Message.toolRequests (m : Message) : List ToolRequest :=
  m.content.filterMap fun c =>
    match c with
    | .toolRequest r => some r
    | _ => none

/-- The request ids of a message's tool-use requests. -/
def Message.requestIds (m : Message) : List String :=
  m.toolRequests.map (·.id)

/-- The ids of a message's tool-result attachments. -/
def Message.responseIds (m : Message) : List String :=
  m.content.filterMap fun c =>
    match c with
    | .toolResponse id _ => some id
    | _ => none

/-- The `(id, output)` pairs of a message's tool-result attachments. -/
def Message.toolResponses (m : Message) : List (String × ToolOutput) :=
  m.content.filterMap fun c =>
    match c with
    | .toolResponse id output => some (id, output)
    | _ => none

/-- Modelled from the spec: whether a request is a frontend request
("tool names present in the FrontendTools map", §4.7); a request whose
recorded call is an `Err` has no name and stays with the remaining
requests. -/
def is_frontend_request (frontend_tool_names : List String)
    (r : ToolRequest) : Bool :=
  match r.tool_call with
  | .ok call => frontend_tool_names.contains call.name
  | .error _ => false

/-- Modelled from the spec: `categorize_tool_requests` (§4.7) splits the
assistant message into frontend requests and remaining requests and
removes the frontend tool-use parts from the yielded message. -/
def categorize_tool_requests (frontend_tool_names : List String)
    (msg : Message) : List ToolRequest × List ToolRequest × Message :=
  let reqs := msg.toolRequests
  let frontend := reqs.filter (is_frontend_request frontend_tool_names)
  let remaining := reqs.filter fun r => !is_frontend_request frontend_tool_names r
  let filtered : Message :=
    { msg with
      content := msg.content.filter fun c =>
        match c with
        | .toolRequest r => !is_frontend_request frontend_tool_names r
        | _ => true }
  (frontend, remaining, filtered)

/-- Per-turn oracle data: the permission-gate partition of the remaining
requests (spec §4.3), the enable-extension request ids, the confirmation
channel outcomes, the resolved dispatch output per request id, and the
frontend tool_result channel content per request id. -/
structure TurnOracle where
  approved : List ToolRequest
  needs_approval : List ToolRequest
  denied : List ToolRequest
  enable_extension_request_ids : List String
  confirm : String → Bool
  dispatch_output : String → ToolOutput
  frontend_output : String → ToolOutput

/-- An event yielded while processing one turn (assistant / user
messages and confirmation requests; MCP notifications are not
modelled). -/
inductive TurnEvent where
  | message (m : Message)
  | confirmationRequest (id : String)
deriving DecidableEq

/-- Result of processing the tool requests of one provider turn. -/
structure TurnResult where
  events : List TurnEvent
  tool_response : Message
  dispatched : List String
  reloaded : Bool

/-- Fold a batch of `(request_id, output)` pairs into a message via
`with_tool_response`, in order. -/
def fold_tool_responses (m : Message) (pairs : List (String × ToolOutput)) :
    Message :=
  pairs.foldl (fun acc p => acc.with_tool_response p.1 p.2) m

/-- The body of one reply-loop turn after the provider response has been
received (agent.rs:783-950): categorise, surface frontend requests and
fold their results, then either skip everything (chat mode,
agent.rs:837-845) or run the permission gate, kick off approved
dispatches — silently skipping approved requests whose recorded
`tool_call` is an `Err` (agent.rs:864) — fold declines, process the
approval stream, drain the dispatched tools, and decide whether to
reload the tool list (agent.rs:923-943). -/
def process_turn (mode : String) (frontend_tool_names : List String)
    (t : TurnOracle) (response : Message) : TurnResult :=
  let categorized := categorize_tool_requests frontend_tool_names response
  let frontend_requests := categorized.1
  let remaining_requests := categorized.2.1
  let filtered_response := categorized.2.2
  let frontend_events := frontend_requests.map fun r =>
    TurnEvent.message ⟨Role.assistant, [.toolRequest r]⟩
  let resp0 := fold_tool_responses Message.user
    (frontend_requests.map fun r => (r.id, t.frontend_output r.id))
  if mode = "chat" then
    let resp1 := fold_tool_responses resp0
      (remaining_requests.map fun r =>
        (r.id, .ok [Content.text CHAT_MODE_TOOL_SKIPPED_RESPONSE]))
    ⟨[.message filtered_response] ++ frontend_events ++ [.message resp1],
     resp1, [], false⟩
  else
    let approved_dispatched :=
      (t.approved.filter fun r => r.tool_call.isOkB).map (·.id)
    let resp1 := fold_tool_responses resp0
      (t.denied.map fun r => (r.id, .ok [Content.text DECLINED_RESPONSE]))
    let approval_events := t.needs_approval.map fun r =>
      TurnEvent.confirmationRequest r.id
    let allowed_ids :=
      (t.needs_approval.filter fun r => t.confirm r.id).map (·.id)
    let resp2 := fold_tool_responses resp1
      ((t.needs_approval.filter fun r => !t.confirm r.id).map fun r =>
        (r.id, .ok [Content.text DECLINED_RESPONSE]))
    let drained := approved_dispatched ++ allowed_ids
    let resp3 := fold_tool_responses resp2
      (drained.map fun id => (id, t.dispatch_output id))
    let all_install_successful := drained.all fun id =>
      !(t.enable_extension_request_ids.contains id)
        || (t.dispatch_output id).isOkB
    ⟨[.message filtered_response] ++ frontend_events ++ approval_events
       ++ [.message resp3],
     resp3, drained, all_install_successful⟩

/-- One provider turn outcome consumed by the reply loop. -/
inductive ProviderOutcome where
  | success (response : Message) (t : TurnOracle)
  | contextLengthExceeded
  | failure (msg : String)

/-- The conversation built by a full `reply()` run (agent.rs:767-972):
each successful provider turn with at least one tool request appends the
assistant response and the tool-response user message; a turn with no
tool requests, a provider error, or exhaustion of the provider ends the
run without appending. -/
def reply_messages (mode : String) (frontend_tool_names : List String) :
    List Message → List ProviderOutcome → List Message
  | ms, [] => ms
  | ms, .contextLengthExceeded :: _ => ms
  | ms, .failure _ :: _ => ms
  | ms, .success response t :: rest =>
    if response.toolRequests.isEmpty then ms
    else
      let turn := process_turn mode frontend_tool_names t response
      reply_messages mode frontend_tool_names
        (ms ++ [response, turn.tool_response]) rest

/-- The next message answers every tool-use request of `req` with
exactly one tool-result attachment per request id. -/
def answers_exactly_once (req resp : Message) : Prop :=
  resp.role = Role.user ∧
    ∀ id ∈ req.requestIds, resp.responseIds.count id = 1

instance (req resp : Message) : Decidable (answers_exactly_once req resp) := by
  unfold answers_exactly_once
  exact inferInstance

/-- Message pairing from position `n` on: every message carrying a
tool-use request is immediately followed by a user message answering
each request exactly once. -/
def paired_from (n : Nat) (ms : List Message) : Prop :=
  ∀ i, (h : i < ms.length) → n ≤ i →
    (ms.get ⟨i, h⟩).requestIds ≠ [] →
    (i + 1 < ms.length ∧
      answers_exactly_once (ms.get ⟨i, h⟩) (ms.getD (i + 1) Message.user))

instance (n : Nat) (ms : List Message) : Decidable (paired_from n ms) := by
  unfold paired_from
  exact Nat.decidableBallLT _ _

/-!
## Lock acquisition traces

Every shared field of the `Agent` sits behind its own `tokio::sync::Mutex`
(agent.rs:53-66).  For the locking-discipline claim we model, per
operation and per control-flow path, the static sequence of lock
acquisitions and releases the path performs, and check whether any
acquisition targets a lock already held by the same task
(`tokio::sync::Mutex` is not reentrant, so such an acquisition never
completes).
-/

/-- The mutex-protected fields of the `Agent` (agent.rs:53-66). -/
inductive LockId where
  | provider
  | extensionManager
  | frontendTools
  | frontendInstructions
  | promptManager
  | toolMonitor
  | routerToolSelector
  | schedulerService
deriving DecidableEq

/-- A lock operation attempted by an execution path, in program order. -/
inductive LockEvent where
  | acquire (l : LockId)
  | release (l : LockId)
deriving DecidableEq

/-- Whether the trace ever attempts to acquire a lock while the same
task already holds it (`held` is the multiset of held locks). -/
def acquires_held : List LockEvent → List LockId → Bool
  | [], _ => false
  | .acquire l :: rest, held =>
    held.contains l || acquires_held rest (l :: held)
  | .release l :: rest, held => acquires_held rest (held.erase l)

/-- A same-lock re-acquisition somewhere in the trace (self-deadlock on a
non-reentrant mutex). -/
def nested_lock_violation (tr : List LockEvent) : Bool :=
  acquires_held tr []

/-- Static lock trace of `Agent::manage_extensions` (agent.rs:298-381),
parameterised by the branch taken.  The `extension_manager` guard is
acquired at agent.rs:304 and held until the function returns.  On the
enable path with a successful mutation, the `router_tool_selector` guard
is taken and dropped within the statement at agent.rs:355; when vector
routing is enabled and a selector is present, agent.rs:359 acquires
`extension_manager` again while the guard from agent.rs:304 is still
held. -/
def manage_extensions_lock_trace (action : String)
    (config_found add_ok vector_enabled selector_present : Bool) :
    List LockEvent :=
  .acquire .extensionManager ::
  (if action = "disable" then
    [.release .extensionManager]
  else if !config_found then
    [.release .extensionManager]
  else if !add_ok then
    [.release .extensionManager]
  else
    [.acquire .routerToolSelector, .release .routerToolSelector] ++
    (if vector_enabled && selector_present then
      [.acquire .extensionManager, .release .extensionManager,
       .release .extensionManager]
    else
      [.release .extensionManager]))

/-- Static lock trace of `Agent::add_extension` (agent.rs:580-637).  The
frontend arm holds `frontend_tools` (agent.rs:589) and then
`frontend_instructions` (agent.rs:598) until the arm ends; the other arm
holds `extension_manager` (agent.rs:609) within its own block.  Both
continue (unless the add failed and returned early) with the
`router_tool_selector` guard at agent.rs:615, and, when vector routing is
enabled with a selector present, a fresh `extension_manager` guard at
agent.rs:618 — taken after the earlier guard was dropped. -/
def add_extension_lock_trace (is_frontend add_ok vector_enabled
    selector_present : Bool) : List LockEvent :=
  (if is_frontend then
    [.acquire .frontendTools, .acquire .frontendInstructions,
     .release .frontendInstructions, .release .frontendTools]
  else
    [.acquire .extensionManager, .release .extensionManager]) ++
  (if !is_frontend && !add_ok then
    []
  else
    [.acquire .routerToolSelector, .release .routerToolSelector] ++
    (if vector_enabled && selector_present then
      [.acquire .extensionManager, .release .extensionManager]
    else
      []))

/-!
## Supporting lemmas
-/

lemma with_tool_response_responseIds (m : Message) (id : String)
    (o : ToolOutput) :
    (m.with_tool_response id o).responseIds = m.responseIds ++ [id] := by
  simp [Message.with_tool_response, Message.responseIds]

lemma with_tool_response_toolResponses (m : Message) (id : String)
    (o : ToolOutput) :
    (m.with_tool_response id o).toolResponses = m.toolResponses ++ [(id, o)] := by
  simp [Message.with_tool_response, Message.toolResponses]

lemma with_tool_response_requestIds (m : Message) (id : String)
    (o : ToolOutput) :
    (m.with_tool_response id o).requestIds = m.requestIds := by
  simp [Message.with_tool_response, Message.requestIds, Message.toolRequests]

lemma with_tool_response_role (m : Message) (id : String) (o : ToolOutput) :
    (m.with_tool_response id o).role = m.role := rfl

lemma fold_tool_responses_responseIds (pairs : List (String × ToolOutput))
    (m : Message) :
    (fold_tool_responses m pairs).responseIds
      = m.responseIds ++ pairs.map (·.1) := by
  induction pairs generalizing m with
  | nil => simp [fold_tool_responses]
  | cons p rest ih =>
    simp [fold_tool_responses] at ih ⊢
    rw [ih, with_tool_response_responseIds]
    simp

lemma fold_tool_responses_toolResponses (pairs : List (String × ToolOutput))
    (m : Message) :
    (fold_tool_responses m pairs).toolResponses
      = m.toolResponses ++ pairs := by
  induction pairs generalizing m with
  | nil => simp [fold_tool_responses]
  | cons p rest ih =>
    simp [fold_tool_responses] at ih ⊢
    rw [ih, with_tool_response_toolResponses]
    simp

lemma fold_tool_responses_requestIds (pairs : List (String × ToolOutput))
    (m : Message) :
    (fold_tool_responses m pairs).requestIds = m.requestIds := by
  induction pairs generalizing m with
  | nil => simp [fold_tool_responses]
  | cons p rest ih =>
    simp [fold_tool_responses] at ih ⊢
    rw [ih, with_tool_response_requestIds]

lemma fold_tool_responses_role (pairs : List (String × ToolOutput))
    (m : Message) :
    (fold_tool_responses m pairs).role = m.role := by
  induction pairs generalizing m with
  | nil => simp [fold_tool_responses]
  | cons p rest ih =>
    simp [fold_tool_responses] at ih ⊢
    rw [ih, with_tool_response_role]

/-!
## Sample oracle environments (used to instantiate witnesses)
-/

/-- A trivial scheduler oracle. -/
def sampleScheduler : Scheduler where
  list_scheduled_jobs := .ok []
  add_scheduled_job := fun _ => .ok ()
  run_now := fun _ => .ok "sess-42"
  pause_schedule := fun _ => .ok ()
  unpause_schedule := fun _ => .ok ()
  remove_scheduled_job := fun _ => .ok ()
  kill_running_job := fun _ => .ok ()
  get_running_job_info := fun _ => .ok none
  sessions := fun _ _ => .ok []

/-- A trivial schedule handler environment. -/
def sampleScheduleEnv : ScheduleEnv where
  path_exists := fun _ => false
  read_to_string := fun _ => .error "no such file"
  parse_json_recipe := fun _ => .ok ()
  parse_yaml_recipe := fun _ => .ok ()
  to_string_pretty := fun _ => "[]"
  now_timestamp := 0
  rfc3339 := fun _ => "1970-01-01T00:00:00+00:00"

/-- A trivial extension environment with vector routing disabled. -/
def sampleExtensionEnv : ExtensionEnv where
  get_config_by_name := fun _ => .ok none
  add_outcome := fun _ => .ok ()
  remove_outcome := fun _ => .ok ()
  vector_tool_router_enabled := false
  selector_present := false
  update_extension_tools := fun _ _ => .ok ()

/-- A trivial dispatch environment. -/
def sampleDispatchEnv : DispatchEnv where
  sched_env := sampleScheduleEnv
  scheduler_service := none
  ext_env := sampleExtensionEnv
  frontend_tool_names := []
  select_tools := fun _ => .ok []
  read_resource := fun _ => .ok []
  list_resources := fun _ => .ok []
  search_available_extensions := .ok []
  extension_dispatch := fun _ => .ok (.ok [])
  process_tool_response := fun o => o

/-- Default element used with `List.getD` over dispatch results. -/
def dummyDispatchResult : DispatchResult :=
  ⟨"", .error (.executionError ""), ⟨none, []⟩, [], [], []⟩

lemma manage_extensions_request_id (env : ExtensionEnv) (exts : List String)
    (action extension_name request_id : String) :
    (manage_extensions env exts action extension_name request_id).request_id
      = request_id := by
  unfold manage_extensions
  repeat' (first | rfl | split | dsimp only)

/-- C10.  Implicit — request-id preservation: on every branch of
`dispatch_tool_call` (monitor rejection, each platform tool, the
frontend sentinel, vector search, extension dispatch) the first
component of the returned pair is exactly the `request_id` that was
passed in. -/
theorem C10_request_id_preserved (env : DispatchEnv) (st : AgentState)
    (tool_call : ToolCall) (request_id : String) :
    (dispatch_tool_call env st tool_call request_id).request_id = request_id := by
  unfold dispatch_tool_call
  repeat'
    (first | rfl | simp only [manage_extensions_request_id] | split)

/-- C6.  The no-nested-lock discipline is violated by
`Agent::manage_extensions`: on the enable path with a found config, a
successful add, vector routing enabled and a selector present, the path
acquires the `extension_manager` mutex (agent.rs:359) while the same
call still holds it (guard from agent.rs:304) — a self-deadlock on the
non-reentrant `tokio::sync::Mutex`.  By contrast, `Agent::add_extension`
never re-acquires a held lock on any path. -/
theorem C6_nested_lock_acquired :
    nested_lock_violation
      (manage_extensions_lock_trace "enable" true true true true) = true
    ∧ ∀ (is_frontend add_ok vector_enabled selector_present : Bool),
        nested_lock_violation
          (add_extension_lock_trace is_frontend add_ok vector_enabled
            selector_present) = false := by
  refine ⟨by decide, ?_⟩
  intro f a v s
  cases f <;> cases a <;> cases v <;> cases s <;> decide

lemma scheduler_unavailable_ne_unknown_action (v : String) :
    ("Scheduler not available. This tool only works in server mode." : String)
      ≠ "Unknown action: " ++ v := by
  intro h
  have hd : ("Scheduler not available. This tool only works in server mode." :
      String).data = ("Unknown action: " : String).data ++ v.data := by
    rw [h, String.data_append]
  have hh := congrArg List.head? hd
  have hu : (("Unknown action: " : String).data ++ v.data).head? = some 'U' := rfl
  rw [hu] at hh
  exact absurd hh (by decide)

/-- C4.  Schedule tool error contract: (a) without an attached scheduler
every invocation returns the fixed unavailability `ExecutionError` and
performs no scheduler call; (b) with a scheduler attached, an action
outside the nine known actions yields `Unknown action: <v>`; (c) a
recognised action whose required string argument is missing yields
`Missing '<name>' parameter`, in each case without invoking the
scheduler. -/
theorem C4_schedule_tool_error_contract (env : ScheduleEnv) (s : Scheduler)
    (args : Json) :
    (handle_schedule_management env none args
      = (.error (.executionError
          "Scheduler not available. This tool only works in server mode."), []))
    ∧ (∀ v, args.getStr "action" = some v →
        v ∉ (["list", "create", "run_now", "pause", "unpause", "delete",
          "kill", "inspect", "sessions"] : List String) →
        handle_schedule_management env (some s) args
          = (.error (.executionError ("Unknown action: " ++ v)), []))
    ∧ (args.getStr "action" = some "create" →
        args.getStr "recipe_path" = none →
        handle_schedule_management env (some s) args
          = (.error (.executionError "Missing 'recipe_path' parameter"), []))
    ∧ (∀ rp, args.getStr "action" = some "create" →
        args.getStr "recipe_path" = some rp →
        args.getStr "cron_expression" = none →
        handle_schedule_management env (some s) args
          = (.error (.executionError "Missing 'cron_expression' parameter"), []))
    ∧ (∀ a, a ∈ (["run_now", "pause", "unpause", "delete", "kill", "inspect",
          "sessions"] : List String) →
        args.getStr "action" = some a →
        args.getStr "job_id" = none →
        handle_schedule_management env (some s) args
          = (.error (.executionError "Missing 'job_id' parameter"), [])) := by
  refine ⟨rfl, ?_, ?_, ?_, ?_⟩
  · intro v hv hnot
    simp only [List.mem_cons, List.not_mem_nil, or_false, not_or] at hnot
    obtain ⟨h1, h2, h3, h4, h5, h6, h7, h8, h9⟩ := hnot
    simp [handle_schedule_management, hv, h1, h2, h3, h4, h5, h6, h7, h8, h9]
  · intro ha hrp
    simp [handle_schedule_management, ha, handle_create_job, hrp]
  · intro rp ha hrp hcron
    simp [handle_schedule_management, ha, handle_create_job, hrp, hcron]
  · intro a hmem ha hjob
    fin_cases hmem <;>
      simp [handle_schedule_management, ha, handle_run_now, handle_pause_job,
        handle_unpause_job, handle_delete_job, handle_kill_job,
        handle_inspect_job, handle_list_sessions, hjob]

/-- Witness for C4 at concrete inputs: an unknown action and a missing
`job_id`. -/
theorem C4_schedule_tool_error_contract_witness :
    (handle_schedule_management sampleScheduleEnv (some sampleScheduler)
        (Json.mkObj [("action", Json.str "frobnicate")])
      = (.error (.executionError ("Unknown action: " ++ "frobnicate")), []))
    ∧ (handle_schedule_management sampleScheduleEnv (some sampleScheduler)
        (Json.mkObj [("action", Json.str "run_now")])
      = (.error (.executionError "Missing 'job_id' parameter"), [])) :=
  ⟨(C4_schedule_tool_error_contract sampleScheduleEnv sampleScheduler
      (Json.mkObj [("action", Json.str "frobnicate")])).2.1 "frobnicate"
      (by decide) (by decide),
   (C4_schedule_tool_error_contract sampleScheduleEnv sampleScheduler
      (Json.mkObj [("action", Json.str "run_now")])).2.2.2.2 "run_now"
      (by decide) (by decide) (by decide)⟩

/-- C8.  Implicit — the scheduler-availability check precedes all
argument parsing: with no scheduler attached the unavailability error is
returned for every argument value (including arguments without an
`action` key and unknown actions), so the missing-`action` and
unknown-action errors are reachable only with a scheduler attached. -/
theorem C8_scheduler_check_precedes_parsing (env : ScheduleEnv) (args : Json) :
    (handle_schedule_management env none args
      = (.error (.executionError
          "Scheduler not available. This tool only works in server mode."), []))
    ∧ (∀ svc : Option Scheduler,
        (handle_schedule_management env svc args).1
            = .error (.executionError "Missing 'action' parameter") →
          svc.isSome = true)
    ∧ (∀ (svc : Option Scheduler) (v : String),
        (handle_schedule_management env svc args).1
            = .error (.executionError ("Unknown action: " ++ v)) →
          svc.isSome = true) := by
  refine ⟨rfl, ?_, ?_⟩
  · intro svc h
    cases svc with
    | some s => rfl
    | none => simp [handle_schedule_management] at h
  · intro svc v h
    cases svc with
    | some s => rfl
    | none =>
      simp [handle_schedule_management] at h
      exact absurd h (scheduler_unavailable_ne_unknown_action v)

/-- Witness for C8: with a scheduler attached, an argument object
without an `action` key does reach the missing-`action` error. -/
theorem C8_scheduler_check_precedes_parsing_witness :
    (handle_schedule_management sampleScheduleEnv none (Json.mkObj [])
      = (.error (.executionError
          "Scheduler not available. This tool only works in server mode."), []))
    ∧ ((some sampleScheduler : Option Scheduler).isSome = true) :=
  ⟨(C8_scheduler_check_precedes_parsing sampleScheduleEnv (Json.mkObj [])).1,
   (C8_scheduler_check_precedes_parsing sampleScheduleEnv
      (Json.mkObj [])).2.1 (some sampleScheduler) (by decide)⟩

/-- C9.  Implicit — `manage_extensions` missing-argument defaulting: a
`platform.manage_extensions` call whose `action` or `extension_name` is
absent (or not a string) produces no missing-parameter error; both
default to the empty string, any action other than `"disable"` is
treated as an enable attempt, and a defaulted extension name yields the
`Extension '' not found` error when no config matches. -/
theorem C9_manage_extensions_defaulting (env : DispatchEnv) (st : AgentState)
    (args : Json) (request_id : String)
    (hmon : st.tool_monitor = none)
    (ha : args.getStr "action" = none)
    (he : args.getStr "extension_name" = none)
    (hc : env.ext_env.get_config_by_name "" = .ok none) :
    ((dispatch_tool_call env st
        ⟨PLATFORM_MANAGE_EXTENSIONS_TOOL_NAME, args⟩ request_id).outcome
      = .ok (.error (.executionError
          "Extension '' not found. Please check the extension name and try again.")))
    ∧ (∀ (exts : List String) (a name rid : String), a ≠ "disable" →
        env.ext_env.get_config_by_name name = .ok none →
        (manage_extensions env.ext_env exts a name rid).result
          = .error (.executionError ("Extension '" ++ name
              ++ "' not found. Please check the extension name and try again."))) := by
  constructor
  · simp [dispatch_tool_call, hmon, ha, he, PLATFORM_MANAGE_EXTENSIONS_TOOL_NAME,
      PLATFORM_MANAGE_SCHEDULE_TOOL_NAME, manage_extensions, hc]
  · intro exts a name rid hd hcfg
    simp [manage_extensions, hd, hcfg]

/-- Witness for C9 at a concrete empty argument object. -/
theorem C9_manage_extensions_defaulting_witness :
    (dispatch_tool_call sampleDispatchEnv ⟨none, []⟩
        ⟨PLATFORM_MANAGE_EXTENSIONS_TOOL_NAME, Json.mkObj []⟩ "req-9").outcome
      = .ok (.error (.executionError
          "Extension '' not found. Please check the extension name and try again.")) :=
  (C9_manage_extensions_defaulting sampleDispatchEnv ⟨none, []⟩
    (Json.mkObj []) "req-9" rfl rfl rfl rfl).1

/-- Extension environment with vector routing enabled and indexing
succeeding; used for the C5 counterexample. -/
def extEnvVector : ExtensionEnv where
  get_config_by_name := fun _ => .ok (some "config")
  add_outcome := fun _ => .ok ()
  remove_outcome := fun _ => .ok ()
  vector_tool_router_enabled := true
  selector_present := true
  update_extension_tools := fun _ _ => .ok ()

/-- Extension environment with vector routing enabled and indexing
failing; used for the C5 witness. -/
def extEnvVectorFail : ExtensionEnv where
  get_config_by_name := fun _ => .ok (some "config")
  add_outcome := fun _ => .ok ()
  remove_outcome := fun _ => .ok ()
  vector_tool_router_enabled := true
  selector_present := true
  update_extension_tools := fun _ _ => .error "index write failed"

/-- C5 counterexample: a `disable` call whose mutation succeeds, with
vector tool routing enabled and a selector present, performs no
vector-index invocation at all — the claim requires a `remove`
invocation here. -/
theorem C5_counterexample_disable_no_indexing :
    ((manage_extensions extEnvVector ["memory"] "disable" "memory"
        "req-5").result).isOkB = true
    ∧ extEnvVector.vector_tool_router_enabled = true
    ∧ extEnvVector.selector_present = true
    ∧ (manage_extensions extEnvVector ["memory"] "disable" "memory"
        "req-5").index_calls = [] := by
  refine ⟨rfl, rfl, rfl, rfl⟩

/-- C5 (amended).  Indexing happens only for enable: when an enable
mutation succeeds and vector routing is enabled with a selector present,
the `RouterIndexManager` is invoked with action `add`; an indexing
failure is returned as an `ExecutionError` while the already-applied
mutation is not rolled back.  The `disable` branch returns before the
indexing block, so no index invocation ever happens on disable. -/
theorem C5_extension_indexing_amended (env : ExtensionEnv)
    (exts : List String) (a name rid : String)
    (hena : a ≠ "disable")
    (hcfg : ∃ c, env.get_config_by_name name = .ok (some c))
    (hadd : env.add_outcome name = .ok ())
    (hvec : env.vector_tool_router_enabled = true)
    (hsel : env.selector_present = true) :
    ((manage_extensions env exts a name rid).index_calls = [(name, "add")])
    ∧ (∀ e, env.update_extension_tools name "add" = .error e →
        (manage_extensions env exts a name rid).result
            = .error (.executionError ("Failed to update vector index: " ++ e))
          ∧ name ∈ (manage_extensions env exts a name rid).extensions)
    ∧ (∀ (env2 : ExtensionEnv) (exts2 : List String) (nm rid2 : String),
        (manage_extensions env2 exts2 "disable" nm rid2).index_calls = []) := by
  obtain ⟨c, hcfg⟩ := hcfg
  refine ⟨?_, ?_, ?_⟩
  · cases hupd : env.update_extension_tools name "add" with
    | ok u =>
      cases u
      simp [manage_extensions, if_neg hena, hcfg, hadd, hvec, hsel, hupd]
    | error e =>
      simp [manage_extensions, if_neg hena, hcfg, hadd, hvec, hsel, hupd]
  · intro e hupd
    simp only [manage_extensions, if_neg hena, hcfg, hadd, hvec, hsel, hupd]
    simp
  · intro env2 exts2 nm rid2
    unfold manage_extensions
    split
    · split <;> rfl
    · simp at *

/-- Witness for C5 (amended) at a concrete failing-index environment. -/
theorem C5_extension_indexing_amended_witness :
    ((manage_extensions extEnvVectorFail [] "enable" "memory"
        "req-5w").index_calls = [("memory", "add")])
    ∧ (manage_extensions extEnvVectorFail [] "enable" "memory"
          "req-5w").result
        = .error (.executionError
            ("Failed to update vector index: " ++ "index write failed"))
    ∧ "memory" ∈ (manage_extensions extEnvVectorFail [] "enable" "memory"
        "req-5w").extensions :=
  have h := C5_extension_indexing_amended extEnvVectorFail [] "enable" "memory"
    "req-5w" (by decide) ⟨"config", rfl⟩ rfl rfl rfl
  ⟨h.1, (h.2.1 "index write failed" rfl).1, (h.2.1 "index write failed" rfl).2⟩

lemma toolcall_eta (c : ToolCall) : (⟨c.name, c.arguments⟩ : ToolCall) = c := rfl

lemma check_tool_call_same (K j : Nat) (c : ToolCall) :
    (ToolMonitor.mk (some K) (some c) j).check_tool_call c
      = (decide (j + 1 ≤ K), ⟨some K, some c, j + 1⟩) := by
  simp [ToolMonitor.check_tool_call]

lemma check_tool_call_fresh (K : Nat) (c : ToolCall) :
    (ToolMonitor.new (some K)).check_tool_call c
      = (decide (1 ≤ K), ⟨some K, some c, 1⟩) := by
  simp [ToolMonitor.new, ToolMonitor.check_tool_call]

lemma dispatch_monitor_state (env : DispatchEnv) (st : AgentState)
    (c : ToolCall) (id : String) (m : ToolMonitor)
    (hm : st.tool_monitor = some m) :
    (dispatch_tool_call env st c id).state.tool_monitor
      = some (m.check_tool_call c).2 := by
  simp only [dispatch_tool_call, hm, toolcall_eta]
  repeat' (first | rfl | split)

lemma dispatch_rejected (env : DispatchEnv) (st : AgentState) (c : ToolCall)
    (id : String) (m : ToolMonitor) (hm : st.tool_monitor = some m)
    (hr : (m.check_tool_call c).1 = false) :
    (dispatch_tool_call env st c id).outcome
        = .error (.executionError
            "Tool call rejected: exceeded maximum allowed repetitions")
      ∧ (dispatch_tool_call env st c id).sched_calls = []
      ∧ (dispatch_tool_call env st c id).index_calls = []
      ∧ (dispatch_tool_call env st c id).ext_dispatch_calls = []
      ∧ (dispatch_tool_call env st c id).state.extensions = st.extensions := by
  simp only [dispatch_tool_call, hm, toolcall_eta, hr]
  exact ⟨rfl, rfl, rfl, rfl, rfl⟩

lemma dispatch_allowed (env : DispatchEnv) (st : AgentState) (c : ToolCall)
    (id : String) (m : ToolMonitor) (hm : st.tool_monitor = some m)
    (ha : (m.check_tool_call c).1 = true) :
    (dispatch_tool_call env st c id).outcome.isOkB = true := by
  simp only [dispatch_tool_call, hm, toolcall_eta, ha]
  rw [if_neg (by decide : ¬(true = false))]
  repeat' (first | rfl | split)

lemma dispatch_repeated_count_from (env : DispatchEnv) (c : ToolCall)
    (id : String) (K : Nat) :
    ∀ (n j : Nat) (exts : List String),
      ((dispatch_repeated env ⟨some ⟨some K, some c, j⟩, exts⟩ c id n).1.countP
        (fun r => r.outcome.isOkB)) = min n (K - j) := by
  intro n
  induction n with
  | zero => intro j exts; simp [dispatch_repeated]
  | succ n ih =>
    intro j exts
    simp only [dispatch_repeated]
    set r := dispatch_tool_call env ⟨some ⟨some K, some c, j⟩, exts⟩ c id
      with hrdef
    have hmon : r.state.tool_monitor = some ⟨some K, some c, j + 1⟩ := by
      rw [hrdef, dispatch_monitor_state env _ c id ⟨some K, some c, j⟩ rfl,
        check_tool_call_same]
    have hstate : r.state = ⟨some ⟨some K, some c, j + 1⟩, r.state.extensions⟩ := by
      rw [← hmon]
    rw [List.countP_cons, hstate, ih (j + 1) r.state.extensions]
    by_cases hj : j + 1 ≤ K
    · have hok : r.outcome.isOkB = true := by
        rw [hrdef]
        exact dispatch_allowed env _ c id ⟨some K, some c, j⟩ rfl
          (by rw [check_tool_call_same]; simpa using hj)
      rw [hok, if_pos rfl]
      omega
    · have hrej : r.outcome = .error (.executionError
          "Tool call rejected: exceeded maximum allowed repetitions") := by
        rw [hrdef]
        exact (dispatch_rejected env _ c id ⟨some K, some c, j⟩ rfl
          (by rw [check_tool_call_same]; simpa using hj)).1
      rw [hrej]
      simp only [Except.isOkB]
      rw [if_neg (by decide : ¬(false = true))]
      omega

lemma dispatch_repeated_count_fresh (env : DispatchEnv) (c : ToolCall)
    (id : String) (K : Nat) (n : Nat) (exts : List String) :
    ((dispatch_repeated env ⟨some (ToolMonitor.new (some K)), exts⟩ c id
        n).1.countP (fun r => r.outcome.isOkB)) = min n K := by
  cases n with
  | zero => simp [dispatch_repeated]
  | succ n =>
    simp only [dispatch_repeated]
    set r := dispatch_tool_call env ⟨some (ToolMonitor.new (some K)), exts⟩ c id
      with hrdef
    have hmon : r.state.tool_monitor = some ⟨some K, some c, 1⟩ := by
      rw [hrdef, dispatch_monitor_state env _ c id (ToolMonitor.new (some K)) rfl,
        check_tool_call_fresh]
    have hstate : r.state = ⟨some ⟨some K, some c, 1⟩, r.state.extensions⟩ := by
      rw [← hmon]
    rw [List.countP_cons, hstate,
      dispatch_repeated_count_from env c id K n 1 r.state.extensions]
    by_cases h1 : 1 ≤ K
    · have hok : r.outcome.isOkB = true := by
        rw [hrdef]
        exact dispatch_allowed env _ c id (ToolMonitor.new (some K)) rfl
          (by rw [check_tool_call_fresh]; simpa using h1)
      rw [hok, if_pos rfl]
      omega
    · have hrej : r.outcome = .error (.executionError
          "Tool call rejected: exceeded maximum allowed repetitions") := by
        rw [hrdef]
        exact (dispatch_rejected env _ c id (ToolMonitor.new (some K)) rfl
          (by rw [check_tool_call_fresh]; simpa using h1)).1
      rw [hrej]
      simp only [Except.isOkB]
      rw [if_neg (by decide : ¬(false = true))]
      omega

lemma dispatch_repeated_tail_rejected_from (env : DispatchEnv) (c : ToolCall)
    (id : String) (K : Nat) :
    ∀ (n i j : Nat) (exts : List String), i < n → K ≤ j + i →
      ((dispatch_repeated env ⟨some ⟨some K, some c, j⟩, exts⟩ c id n).1.getD i
          dummyDispatchResult).outcome
        = .error (.executionError
            "Tool call rejected: exceeded maximum allowed repetitions")
      ∧ ((dispatch_repeated env ⟨some ⟨some K, some c, j⟩, exts⟩ c id n).1.getD i
          dummyDispatchResult).sched_calls = []
      ∧ ((dispatch_repeated env ⟨some ⟨some K, some c, j⟩, exts⟩ c id n).1.getD i
          dummyDispatchResult).index_calls = []
      ∧ ((dispatch_repeated env ⟨some ⟨some K, some c, j⟩, exts⟩ c id n).1.getD i
          dummyDispatchResult).ext_dispatch_calls = [] := by
  intro n
  induction n with
  | zero => intro i j exts hi hk; omega
  | succ n ih =>
    intro i j exts hi hk
    simp only [dispatch_repeated]
    set r := dispatch_tool_call env ⟨some ⟨some K, some c, j⟩, exts⟩ c id
      with hrdef
    have hmon : r.state.tool_monitor = some ⟨some K, some c, j + 1⟩ := by
      rw [hrdef, dispatch_monitor_state env _ c id ⟨some K, some c, j⟩ rfl,
        check_tool_call_same]
    have hstate : r.state = ⟨some ⟨some K, some c, j + 1⟩, r.state.extensions⟩ := by
      rw [← hmon]
    cases i with
    | zero =>
      simp only [List.getD_cons_zero]
      have hrej := dispatch_rejected env ⟨some ⟨some K, some c, j⟩, exts⟩ c id
        ⟨some K, some c, j⟩ rfl (by rw [check_tool_call_same]; simp; omega)
      rw [← hrdef] at hrej
      exact ⟨hrej.1, hrej.2.1, hrej.2.2.1, hrej.2.2.2.1⟩
    | succ i =>
      simp only [List.getD_cons_succ]
      rw [hstate]
      exact ih i (j + 1) r.state.extensions (by omega) (by omega)

lemma dispatch_repeated_tail_rejected_fresh (env : DispatchEnv) (c : ToolCall)
    (id : String) (K N : Nat) (exts : List String) (i : Nat)
    (hi : i < N) (hk : K ≤ i) :
    ((dispatch_repeated env ⟨some (ToolMonitor.new (some K)), exts⟩ c id
        N).1.getD i dummyDispatchResult).outcome
      = .error (.executionError
          "Tool call rejected: exceeded maximum allowed repetitions")
    ∧ ((dispatch_repeated env ⟨some (ToolMonitor.new (some K)), exts⟩ c id
        N).1.getD i dummyDispatchResult).sched_calls = []
    ∧ ((dispatch_repeated env ⟨some (ToolMonitor.new (some K)), exts⟩ c id
        N).1.getD i dummyDispatchResult).index_calls = []
    ∧ ((dispatch_repeated env ⟨some (ToolMonitor.new (some K)), exts⟩ c id
        N).1.getD i dummyDispatchResult).ext_dispatch_calls = [] := by
  cases N with
  | zero => omega
  | succ n =>
    simp only [dispatch_repeated]
    set r := dispatch_tool_call env ⟨some (ToolMonitor.new (some K)), exts⟩ c id
      with hrdef
    have hmon : r.state.tool_monitor = some ⟨some K, some c, 1⟩ := by
      rw [hrdef, dispatch_monitor_state env _ c id (ToolMonitor.new (some K)) rfl,
        check_tool_call_fresh]
    have hstate : r.state = ⟨some ⟨some K, some c, 1⟩, r.state.extensions⟩ := by
      rw [← hmon]
    cases i with
    | zero =>
      simp only [List.getD_cons_zero]
      have hrej := dispatch_rejected env
        ⟨some (ToolMonitor.new (some K)), exts⟩ c id (ToolMonitor.new (some K))
        rfl (by rw [check_tool_call_fresh]; simp; omega)
      rw [← hrdef] at hrej
      exact ⟨hrej.1, hrej.2.1, hrej.2.2.1, hrej.2.2.2.1⟩
    | succ i =>
      simp only [List.getD_cons_succ]
      rw [hstate]
      exact dispatch_repeated_tail_rejected_from env c id K n i 1
        r.state.extensions (by omega) (by omega)

/-- C3.  Tool-monitor repetition cap: starting from a fresh monitor with
`max_repetitions = K`, among `N` invocations of `dispatch_tool_call`
with identical `(name, arguments)`, exactly `min N K` proceed to
dispatch (their outer result is `Ok`) and every later invocation returns
`Err(ExecutionError("Tool call rejected: exceeded maximum allowed
repetitions"))` without any scheduler, vector-index, or extension
dispatch invocation. -/
theorem C3_tool_monitor_repetition_cap (env : DispatchEnv) (c : ToolCall)
    (id : String) (exts : List String) (K N : Nat) :
    ((dispatch_repeated env ⟨some (ToolMonitor.new (some K)), exts⟩ c id
        N).1.countP (fun r => r.outcome.isOkB)) = min N K
    ∧ ∀ i, K ≤ i → i < N →
        ((dispatch_repeated env ⟨some (ToolMonitor.new (some K)), exts⟩ c id
            N).1.getD i dummyDispatchResult).outcome
          = .error (.executionError
              "Tool call rejected: exceeded maximum allowed repetitions")
        ∧ ((dispatch_repeated env ⟨some (ToolMonitor.new (some K)), exts⟩ c id
            N).1.getD i dummyDispatchResult).sched_calls = []
        ∧ ((dispatch_repeated env ⟨some (ToolMonitor.new (some K)), exts⟩ c id
            N).1.getD i dummyDispatchResult).index_calls = []
        ∧ ((dispatch_repeated env ⟨some (ToolMonitor.new (some K)), exts⟩ c id
            N).1.getD i dummyDispatchResult).ext_dispatch_calls = [] :=
  ⟨dispatch_repeated_count_fresh env c id K N exts,
   fun i hk hi => dispatch_repeated_tail_rejected_fresh env c id K N exts i hi hk⟩

/-- Witness for C3 with `K = 1`, `N = 3`: the third identical call is
rejected with the exact sentinel, and exactly one call succeeded. -/
theorem C3_tool_monitor_repetition_cap_witness :
    ((dispatch_repeated sampleDispatchEnv ⟨some (ToolMonitor.new (some 1)), []⟩
        ⟨"foo", Json.null⟩ "req-3" 3).1.countP
      (fun r => r.outcome.isOkB)) = min 3 1
    ∧ ((dispatch_repeated sampleDispatchEnv ⟨some (ToolMonitor.new (some 1)), []⟩
        ⟨"foo", Json.null⟩ "req-3" 3).1.getD 2 dummyDispatchResult).outcome
      = .error (.executionError
          "Tool call rejected: exceeded maximum allowed repetitions") :=
  ⟨(C3_tool_monitor_repetition_cap sampleDispatchEnv ⟨"foo", Json.null⟩ "req-3"
      [] 1 3).1,
   ((C3_tool_monitor_repetition_cap sampleDispatchEnv ⟨"foo", Json.null⟩ "req-3"
      [] 1 3).2 2 (by decide) (by decide)).1⟩

lemma process_turn_chat_tool_response (fn : List String) (t : TurnOracle)
    (response : Message) :
    (process_turn "chat" fn t response).tool_response
      = fold_tool_responses
          (fold_tool_responses Message.user
            ((categorize_tool_requests fn response).1.map fun r =>
              (r.id, t.frontend_output r.id)))
          ((categorize_tool_requests fn response).2.1.map fun r =>
            (r.id, .ok [Content.text CHAT_MODE_TOOL_SKIPPED_RESPONSE])) := rfl

lemma process_turn_chat_events (fn : List String) (t : TurnOracle)
    (response : Message) :
    (process_turn "chat" fn t response).events
      = [.message (categorize_tool_requests fn response).2.2]
        ++ ((categorize_tool_requests fn response).1.map fun r =>
              TurnEvent.message ⟨Role.assistant, [.toolRequest r]⟩)
        ++ [.message (process_turn "chat" fn t response).tool_response] := rfl

/-- C2.  Chat-mode skip: when `GOOSE_MODE` is `"chat"`, every remaining
(non-frontend) tool request is answered in the tool-response message
with the fixed chat-mode skip sentinel; nothing is dispatched and no
approval prompt is emitted. -/
theorem C2_chat_mode_skip (fn : List String) (t : TurnOracle)
    (response : Message) :
    (∀ r ∈ (categorize_tool_requests fn response).2.1,
        (r.id, (.ok [Content.text CHAT_MODE_TOOL_SKIPPED_RESPONSE] : ToolOutput))
          ∈ (process_turn "chat" fn t response).tool_response.toolResponses)
    ∧ ((process_turn "chat" fn t response).tool_response.toolResponses
        = ((categorize_tool_requests fn response).1.map fun r =>
            (r.id, t.frontend_output r.id))
          ++ ((categorize_tool_requests fn response).2.1.map fun r =>
            (r.id, .ok [Content.text CHAT_MODE_TOOL_SKIPPED_RESPONSE])))
    ∧ (process_turn "chat" fn t response).dispatched = []
    ∧ (∀ e ∈ (process_turn "chat" fn t response).events, ∀ cid,
        e ≠ TurnEvent.confirmationRequest cid) := by
  refine ⟨?_, ?_, rfl, ?_⟩
  case refine_2 =>
    rw [process_turn_chat_tool_response, fold_tool_responses_toolResponses,
      fold_tool_responses_toolResponses]
    rfl
  · intro r hr
    rw [process_turn_chat_tool_response, fold_tool_responses_toolResponses]
    exact List.mem_append_right _
      (List.mem_map_of_mem (fun r => (r.id,
        (.ok [Content.text CHAT_MODE_TOOL_SKIPPED_RESPONSE] : ToolOutput))) hr)
  · intro e he cid h
    subst h
    rw [process_turn_chat_events] at he
    simp at he

/-- A minimal turn oracle used to instantiate turn-level witnesses. -/
def sampleTurnOracle : TurnOracle where
  approved := []
  needs_approval := []
  denied := []
  enable_extension_request_ids := []
  confirm := fun _ => true
  dispatch_output := fun _ => .ok []
  frontend_output := fun _ => .ok []

/-- An assistant message with one well-formed tool request. -/
def sampleChatResponse : Message :=
  ⟨Role.assistant, [.toolRequest ⟨"r1", .ok ⟨"foo", Json.null⟩⟩]⟩

/-- Witness for C2: the single remaining request of a concrete chat turn
is answered with the skip sentinel. -/
theorem C2_chat_mode_skip_witness :
    ("r1", (.ok [Content.text CHAT_MODE_TOOL_SKIPPED_RESPONSE] : ToolOutput))
      ∈ (process_turn "chat" [] sampleTurnOracle
          sampleChatResponse).tool_response.toolResponses :=
  (C2_chat_mode_skip [] sampleTurnOracle sampleChatResponse).1
    ⟨"r1", .ok ⟨"foo", Json.null⟩⟩ (by decide)

lemma process_turn_not_chat_reloaded (mode : String) (fn : List String)
    (t : TurnOracle) (response : Message) (hmode : mode ≠ "chat") :
    (process_turn mode fn t response).reloaded
      = ((process_turn mode fn t response).dispatched.all fun id =>
          !(t.enable_extension_request_ids.contains id)
            || (t.dispatch_output id).isOkB) := by
  simp only [process_turn, if_neg hmode]

/-- Tool request and oracle for the C7 counterexample: one ordinary
approved request, no enable-extension requests at all. -/
def respForC7 : Message :=
  ⟨Role.assistant, [.toolRequest ⟨"r1", .ok ⟨"some_tool", Json.null⟩⟩]⟩

/-- Turn oracle for the C7 counterexample. -/
def oracleForC7 : TurnOracle where
  approved := [⟨"r1", .ok ⟨"some_tool", Json.null⟩⟩]
  needs_approval := []
  denied := []
  enable_extension_request_ids := []
  confirm := fun _ => false
  dispatch_output := fun _ => .ok []
  frontend_output := fun _ => .ok []

/-- C7 counterexample: a non-chat turn with one ordinary approved
request and no enable-extension requests still reloads the tool list —
the claim requires that no reload occur in such a turn. -/
theorem C7_counterexample_reload_without_enable :
    oracleForC7.enable_extension_request_ids = []
    ∧ (process_turn "auto" [] oracleForC7 respForC7).dispatched = ["r1"]
    ∧ (process_turn "auto" [] oracleForC7 respForC7).reloaded = true := by
  refine ⟨rfl, by decide, by decide⟩

/-- C7 (amended).  In a non-chat turn the tool list, toolshim tools and
system prompt are reloaded if and only if no dispatched
enable-extension request returned an error; `all_install_successful`
starts `true` (agent.rs:923), so a turn with no enable-extension
requests (or none dispatched) also reloads.  A chat-mode turn never
reloads. -/
theorem C7_tool_refresh_amended (mode : String) (fn : List String)
    (t : TurnOracle) (response : Message) :
    (mode ≠ "chat" →
      ((process_turn mode fn t response).reloaded = true ↔
        ∀ id ∈ (process_turn mode fn t response).dispatched,
          id ∈ t.enable_extension_request_ids →
            (t.dispatch_output id).isOkB = true))
    ∧ (process_turn "chat" fn t response).reloaded = false := by
  constructor
  · intro hmode
    rw [process_turn_not_chat_reloaded mode fn t response hmode,
      List.all_eq_true]
    constructor
    · intro h id hmem hin
      have h2 := h id hmem
      simp only [Bool.or_eq_true, Bool.not_eq_true'] at h2
      rcases h2 with h2 | h2
      · exact absurd hin (by simpa using h2)
      · exact h2
    · intro h id hmem
      by_cases hin : id ∈ t.enable_extension_request_ids
      · simp [h id hmem hin]
      · simp [hin]
  · rfl

/-- Witness for C7 (amended) at the counterexample turn: with no enable
requests the reload condition holds vacuously and the turn reloads. -/
theorem C7_tool_refresh_amended_witness :
    (process_turn "auto" [] oracleForC7 respForC7).reloaded = true :=
  ((C7_tool_refresh_amended "auto" [] oracleForC7 respForC7).1
      (by decide)).mpr (by decide)

/-!
## Message pairing (C1)
-/

lemma categorize_perm (fn : List String) (msg : Message) :
    List.Perm
      ((categorize_tool_requests fn msg).1 ++ (categorize_tool_requests fn msg).2.1)
      msg.toolRequests := by
  simp only [categorize_tool_requests]
  exact List.filter_append_perm _ _

lemma process_turn_not_chat_tool_response (mode : String) (fn : List String)
    (t : TurnOracle) (response : Message) (hmode : mode ≠ "chat") :
    (process_turn mode fn t response).tool_response
      = fold_tool_responses
          (fold_tool_responses
            (fold_tool_responses
              (fold_tool_responses Message.user
                ((categorize_tool_requests fn response).1.map fun r =>
                  (r.id, t.frontend_output r.id)))
              (t.denied.map fun r =>
                (r.id, .ok [Content.text DECLINED_RESPONSE])))
            ((t.needs_approval.filter fun r => !t.confirm r.id).map fun r =>
              (r.id, .ok [Content.text DECLINED_RESPONSE])))
          ((((t.approved.filter fun r => r.tool_call.isOkB).map (·.id))
              ++ ((t.needs_approval.filter fun r => t.confirm r.id).map (·.id))).map
            fun id => (id, t.dispatch_output id)) := by
  simp only [process_turn, if_neg hmode]

lemma process_turn_tool_response_requestIds (mode : String) (fn : List String)
    (t : TurnOracle) (response : Message) :
    (process_turn mode fn t response).tool_response.requestIds = [] := by
  by_cases hmode : mode = "chat"
  · subst hmode
    rw [process_turn_chat_tool_response, fold_tool_responses_requestIds,
      fold_tool_responses_requestIds]
    rfl
  · rw [process_turn_not_chat_tool_response mode fn t response hmode,
      fold_tool_responses_requestIds, fold_tool_responses_requestIds,
      fold_tool_responses_requestIds, fold_tool_responses_requestIds]
    rfl

lemma process_turn_tool_response_role (mode : String) (fn : List String)
    (t : TurnOracle) (response : Message) :
    (process_turn mode fn t response).tool_response.role = Role.user := by
  by_cases hmode : mode = "chat"
  · subst hmode
    rw [process_turn_chat_tool_response, fold_tool_responses_role,
      fold_tool_responses_role]
    rfl
  · rw [process_turn_not_chat_tool_response mode fn t response hmode,
      fold_tool_responses_role, fold_tool_responses_role,
      fold_tool_responses_role, fold_tool_responses_role]
    rfl

lemma process_turn_responseIds_chat (fn : List String) (t : TurnOracle)
    (response : Message) :
    (process_turn "chat" fn t response).tool_response.responseIds
      = (categorize_tool_requests fn response).1.map (·.id)
        ++ (categorize_tool_requests fn response).2.1.map (·.id) := by
  rw [process_turn_chat_tool_response, fold_tool_responses_responseIds,
    fold_tool_responses_responseIds]
  simp [Message.user, Message.responseIds, List.map_map, Function.comp_def]

lemma process_turn_responseIds_not_chat (mode : String) (fn : List String)
    (t : TurnOracle) (response : Message) (hmode : mode ≠ "chat") :
    (process_turn mode fn t response).tool_response.responseIds
      = (categorize_tool_requests fn response).1.map (·.id)
        ++ t.denied.map (·.id)
        ++ (t.needs_approval.filter fun r => !t.confirm r.id).map (·.id)
        ++ (t.approved.filter fun r => r.tool_call.isOkB).map (·.id)
        ++ (t.needs_approval.filter fun r => t.confirm r.id).map (·.id) := by
  rw [process_turn_not_chat_tool_response mode fn t response hmode,
    fold_tool_responses_responseIds, fold_tool_responses_responseIds,
    fold_tool_responses_responseIds, fold_tool_responses_responseIds]
  simp [Message.user, Message.responseIds, List.map_map, Function.comp_def,
    List.append_assoc]

lemma process_turn_responseIds_perm (mode : String) (fn : List String)
    (t : TurnOracle) (response : Message)
    (hpart : List.Perm (t.approved ++ t.needs_approval ++ t.denied)
      (categorize_tool_requests fn response).2.1)
    (hok : ∀ r ∈ t.approved, r.tool_call.isOkB = true) :
    List.Perm (process_turn mode fn t response).tool_response.responseIds
      response.requestIds := by
  by_cases hmode : mode = "chat"
  · subst hmode
    rw [process_turn_responseIds_chat, ← List.map_append]
    unfold Message.requestIds
    exact (categorize_perm fn response).map (·.id)
  · rw [process_turn_responseIds_not_chat mode fn t response hmode,
      List.filter_eq_self.mpr hok]
    have hreq : List.Perm
        ((categorize_tool_requests fn response).1 ++ t.denied
          ++ (t.needs_approval.filter fun r => !t.confirm r.id)
          ++ t.approved
          ++ (t.needs_approval.filter fun r => t.confirm r.id))
        response.toolRequests := by
      rw [← Multiset.coe_eq_coe]
      have h1m := Multiset.coe_eq_coe.mpr
        (List.filter_append_perm (fun r => t.confirm r.id) t.needs_approval)
      have h2m := Multiset.coe_eq_coe.mpr hpart
      have h3m := Multiset.coe_eq_coe.mpr (categorize_perm fn response)
      simp only [← Multiset.coe_add] at h1m h2m h3m ⊢
      rw [← h3m, ← h2m, ← h1m]
      abel
    have hmap := hreq.map (fun r : ToolRequest => r.id)
    unfold Message.requestIds
    simpa [List.map_append] using hmap

lemma process_turn_answers (mode : String) (fn : List String) (t : TurnOracle)
    (response : Message)
    (hnodup : response.requestIds.Nodup)
    (hpart : List.Perm (t.approved ++ t.needs_approval ++ t.denied)
      (categorize_tool_requests fn response).2.1)
    (hok : ∀ r ∈ t.approved, r.tool_call.isOkB = true) :
    answers_exactly_once response (process_turn mode fn t response).tool_response := by
  refine ⟨process_turn_tool_response_role mode fn t response, ?_⟩
  intro id hid
  rw [(process_turn_responseIds_perm mode fn t response hpart hok).count_eq id]
  exact List.count_eq_one_of_mem hnodup hid

/-- The conditions the permission gate guarantees for one successful
turn (spec §4.3 and the data-model uniqueness of request ids, spec §3):
the request ids of the assistant response are distinct, and the gate's
three buckets partition the remaining requests.  The third condition is
the amendment: every approved request carries an `Ok` tool call. -/
def good_turn (fn : List String) (response : Message) (t : TurnOracle) : Prop :=
  response.requestIds.Nodup
  ∧ List.Perm (t.approved ++ t.needs_approval ++ t.denied)
      (categorize_tool_requests fn response).2.1
  ∧ ∀ r ∈ t.approved, r.tool_call.isOkB = true

instance (fn : List String) (response : Message) (t : TurnOracle) :
    Decidable (good_turn fn response t) := by
  unfold good_turn
  exact instDecidableAnd

/-- `good_turn` at every successful provider step. -/
def good_step (fn : List String) : ProviderOutcome → Prop
  | .success response t => good_turn fn response t
  | .contextLengthExceeded => True
  | .failure _ => True

instance (fn : List String) (s : ProviderOutcome) :
    Decidable (good_step fn s) := by
  cases s with
  | success response t => exact inferInstanceAs (Decidable (good_turn fn response t))
  | contextLengthExceeded => exact .isTrue trivial
  | failure m => exact .isTrue trivial

lemma reply_messages_prefix (mode : String) (fn : List String) :
    ∀ (steps : List ProviderOutcome) (ms : List Message),
      ∃ tail, reply_messages mode fn ms steps = ms ++ tail := by
  intro steps
  induction steps with
  | nil => intro ms; exact ⟨[], by simp [reply_messages]⟩
  | cons s rest ih =>
    intro ms
    cases s with
    | contextLengthExceeded => exact ⟨[], by simp [reply_messages]⟩
    | failure m => exact ⟨[], by simp [reply_messages]⟩
    | success response t =>
      by_cases he : response.toolRequests.isEmpty
      · exact ⟨[], by simp [reply_messages, he]⟩
      · obtain ⟨tail, htail⟩ := ih
          (ms ++ [response, (process_turn mode fn t response).tool_response])
        refine ⟨[response, (process_turn mode fn t response).tool_response]
          ++ tail, ?_⟩
        simp only [reply_messages, if_neg he]
        rw [htail, List.append_assoc]

lemma get_append_pair_left (ms : List Message) (a b : Message)
    (tail : List Message) (h : ms.length < (ms ++ [a, b] ++ tail).length) :
    (ms ++ [a, b] ++ tail).get ⟨ms.length, h⟩ = a := by
  rw [List.get_eq_getElem,
    List.getElem_append_left (by simp : ms.length < (ms ++ [a, b]).length),
    List.getElem_append_right (Nat.le_refl ms.length)]
  simp

lemma get_append_pair_right (ms : List Message) (a b : Message)
    (tail : List Message)
    (h : ms.length + 1 < (ms ++ [a, b] ++ tail).length) :
    (ms ++ [a, b] ++ tail).get ⟨ms.length + 1, h⟩ = b := by
  rw [List.get_eq_getElem,
    List.getElem_append_left (by simp : ms.length + 1 < (ms ++ [a, b]).length),
    List.getElem_append_right (by omega : ms.length ≤ ms.length + 1)]
  simp

lemma getD_append_pair_right (ms : List Message) (a b : Message)
    (tail : List Message) :
    (ms ++ [a, b] ++ tail).getD (ms.length + 1) Message.user = b := by
  have hlt : ms.length + 1 < (ms ++ [a, b] ++ tail).length := by
    simp only [List.length_append, List.length_cons, List.length_nil]
    omega
  rw [List.getD_eq_getElem?_getD, List.getElem?_eq_getElem hlt]
  have hg := get_append_pair_right ms a b tail hlt
  rw [List.get_eq_getElem] at hg
  rw [hg]
  rfl

lemma paired_from_extend (ms : List Message) (a b : Message)
    (tail : List Message)
    (hb : b.requestIds = [])
    (hab : answers_exactly_once a b)
    (hrest : paired_from (ms.length + 2) (ms ++ [a, b] ++ tail)) :
    paired_from ms.length (ms ++ [a, b] ++ tail) := by
  intro i h hi hreq
  have hlen : (ms ++ [a, b] ++ tail).length = ms.length + 2 + tail.length := by
    simp only [List.length_append, List.length_cons, List.length_nil]
  rcases Nat.lt_or_ge i (ms.length + 2) with hlt | hge
  · rcases Nat.eq_or_lt_of_le hi with heq | hlt1
    · subst heq
      refine ⟨by omega, ?_⟩
      rw [get_append_pair_left ms a b tail h, getD_append_pair_right ms a b tail]
      exact hab
    · have hieq : i = ms.length + 1 := by omega
      subst hieq
      rw [get_append_pair_right ms a b tail h] at hreq
      exact absurd hb hreq
  · exact hrest i h hge hreq

/-- C1 (amended).  Message pairing for a full `reply()` run: provided
every successful turn's gate partition is a genuine partition of the
remaining requests, the response's request ids are distinct, and — the
amendment — every approved request's recorded tool call is an `Ok`
value, then every message appended by the run that carries a tool-use
request is immediately followed by a user message carrying exactly one
tool-result attachment per request id.  (Without the approved-`Ok`
condition the property fails: agent.rs:864 silently drops an approved
request whose recorded `tool_call` is an `Err`.) -/
theorem C1_message_pairing_amended (mode : String) (fn : List String)
    (init : List Message) (steps : List ProviderOutcome)
    (hgood : ∀ step ∈ steps, good_step fn step) :
    paired_from init.length (reply_messages mode fn init steps) := by
  induction steps generalizing init with
  | nil =>
    intro i h hi hreq
    simp only [reply_messages] at h
    omega
  | cons s rest ih =>
    cases s with
    | contextLengthExceeded =>
      intro i h hi hreq
      simp only [reply_messages] at h
      omega
    | failure m =>
      intro i h hi hreq
      simp only [reply_messages] at h
      omega
    | success response t =>
      by_cases he : response.toolRequests.isEmpty
      · intro i h hi hreq
        simp only [reply_messages, if_pos he] at h
        omega
      · have hgoodr : good_turn fn response t :=
          hgood (.success response t) (List.mem_cons_self _ _)
        have hrest := ih
          (init ++ [response, (process_turn mode fn t response).tool_response])
          (fun step hs => hgood step (List.mem_cons_of_mem _ hs))
        obtain ⟨tail, htail⟩ := reply_messages_prefix mode fn rest
          (init ++ [response, (process_turn mode fn t response).tool_response])
        rw [show reply_messages mode fn init (.success response t :: rest)
            = reply_messages mode fn
                (init ++ [response,
                  (process_turn mode fn t response).tool_response]) rest from by
          simp only [reply_messages, if_neg he]]
        rw [htail]
        apply paired_from_extend
        · exact process_turn_tool_response_requestIds mode fn t response
        · exact process_turn_answers mode fn t response hgoodr.1 hgoodr.2.1
            hgoodr.2.2
        · rw [htail] at hrest
          simpa using hrest

/-- A tool request whose recorded tool call failed to parse. -/
def reqErrForC1 : ToolRequest := ⟨"r1", .error "invalid tool call"⟩

/-- Assistant response carrying only the malformed request. -/
def respForC1 : Message := ⟨Role.assistant, [.toolRequest reqErrForC1]⟩

/-- Turn oracle for the C1 counterexample: the gate places the malformed
request in `approved` (a legitimate partition of the remaining
requests). -/
def oracleForC1 : TurnOracle where
  approved := [reqErrForC1]
  needs_approval := []
  denied := []
  enable_extension_request_ids := []
  confirm := fun _ => true
  dispatch_output := fun _ => .ok []
  frontend_output := fun _ => .ok []

/-- C1 counterexample: a run whose single turn approves a request whose
recorded `tool_call` is an `Err` value produces a conversation that
violates the pairing claim — the request receives no tool-result
(agent.rs:864 skips it) even though the gate partition is valid and the
request ids are distinct. -/
theorem C1_counterexample_err_approved_dropped :
    respForC1.requestIds.Nodup
    ∧ List.Perm (oracleForC1.approved ++ oracleForC1.needs_approval
        ++ oracleForC1.denied) (categorize_tool_requests [] respForC1).2.1
    ∧ ¬ paired_from 0 (reply_messages "auto" [] []
        [.success respForC1 oracleForC1]) := by
  refine ⟨by decide, by decide, by decide⟩

/-- A well-formed tool request for the C1 witness. -/
def reqOkForC1 : ToolRequest := ⟨"r1", .ok ⟨"some_tool", Json.null⟩⟩

/-- Assistant response for the C1 witness. -/
def respForC1w : Message := ⟨Role.assistant, [.toolRequest reqOkForC1]⟩

/-- Turn oracle for the C1 witness. -/
def oracleForC1w : TurnOracle where
  approved := [reqOkForC1]
  needs_approval := []
  denied := []
  enable_extension_request_ids := []
  confirm := fun _ => true
  dispatch_output := fun _ => .ok []
  frontend_output := fun _ => .ok []

/-- Witness for C1 (amended) on a concrete one-turn run. -/
theorem C1_message_pairing_amended_witness :
    paired_from 1 (reply_messages "auto" [] [Message.user]
      [.success respForC1w oracleForC1w]) :=
  C1_message_pairing_amended "auto" [] [Message.user]
    [.success respForC1w oracleForC1w] (by decide)
